import Mathlib

/-!
Verification of the API performance monitor (`src/api_monitor.py`).

The program is a single Python module: an SQLite-backed append-only metrics
table, a monitoring loop (`monitor_api`) that probes each configured endpoint
once per cycle inside one blanket `try/except`, and a dashboard route that
runs two SQL queries (`recent` and a per-endpoint `GROUP BY` summary).

Modelling choices:
* Wall-clock instants and elapsed times are rationals (`ℚ`).  The stored
  `timestamp` column holds `datetime.utcnow().isoformat()`, an injective
  ISO-8601 rendering of the instant at which `log_metric` executes; we store
  the instant itself.
* The SQLite table is a list of `Metric` rows in insertion order; the
  auto-increment `id` column is the list position, so `ORDER BY id DESC`
  is list reversal.
* The nondeterministic environment of one check (the probe outcome, the
  elapsed-time readings, the `utcnow` readings, and whether each
  `log_metric` call raises) is packaged in a `CheckEnv` record.
* A Python exception that escapes the loop body (killing the monitor
  thread) is `Except.error` with the exception's text.
-/

/-- One entry of `API_ENDPOINTS`: a dict with key `"url"` and an optional
key `"method"` (read with `api.get("method", "GET")`). -/
structure Endpoint where
  url : String
  method : Option String
deriving Repr, DecidableEq

/-- One row of the `metrics` table, as inserted by `log_metric`
(src/api_monitor.py lines 58-66).  `timestamp` holds the instant whose
ISO-8601 rendering the Python code stores; `success` is stored as the
integers 1/0, modelled as `Bool`. -/
structure Metric where
  timestamp : ℚ
  endpoint : String
  method : String
  response_time : ℚ
  status_code : Int
  success : Bool
  error_message : Option String
deriving Repr, DecidableEq

/-- `log_metric` (lines 58-66): INSERT one row; `now` is the value of
`datetime.utcnow()` at the call. -/
def log_metric (store : List Metric) (now : ℚ) (endpoint method : String)
    (response_time : ℚ) (status_code : Int) (success : Bool)
    (error_message : Option String) : List Metric :=
  store ++ [{ timestamp := now, endpoint := endpoint, method := method,
              response_time := response_time, status_code := status_code,
              success := success, error_message := error_message }]

/-- Outcome of `requests.request(method, url, timeout=5)` (line 75):
either a response with a status code (any value, 4xx/5xx included), with
the `elapsed` reading taken on line 76, or a raised transport-level
exception whose `str(e)` is `msg`. -/
inductive ProbeOutcome where
  | ok (status : Int) (elapsedTry : ℚ)
  | exn (msg : String)
deriving Repr, DecidableEq

/-- The environment of one iteration of the `for api in API_ENDPOINTS`
body (lines 70-82): the probe outcome, the clock readings, and the fate of
each `log_metric` call (`none` = the INSERT succeeds, `some e` = sqlite
raises an exception with text `e`). -/
structure CheckEnv where
  /-- `time.time()` at line 74, also the utcnow instant of check start. -/
  t0 : ℚ
  /-- The probe outcome (line 75). -/
  outcome : ProbeOutcome
  /-- `time.time() - start` recomputed at line 80 when the handler runs. -/
  elapsedCatch : ℚ
  /-- `datetime.utcnow()` inside the line-77 `log_metric` call. -/
  tLogOk : ℚ
  /-- `datetime.utcnow()` inside the line-81 `log_metric` call. -/
  tLogErr : ℚ
  /-- Fate of the line-77 `log_metric` call (success path). -/
  appendOk : Option String
  /-- Fate of the line-81 `log_metric` call (handler path). -/
  appendErr : Option String
deriving Repr, DecidableEq

/-- Python `str.upper()` on the ASCII method strings in play: uppercase
each character. -/
def pyUpper (s : String) : String :=
  String.mk (s.data.map Char.toUpper)

/-- `api.get("method", "GET").upper()` (line 72). -/
def methodOf (api : Endpoint) : String :=
  pyUpper (api.method.getD "GET")

/-- One iteration of the loop body of `monitor_api` (lines 70-82) for one
endpoint: try to probe and `log_metric` the success row; on any exception
(transport failure, or a storage failure from the first `log_metric`) the
blanket `except` recomputes `elapsed` and calls `log_metric` with
status -1, success 0 and `str(e)`; an exception raised by that second call
is uncaught and propagates (`Except.error`). -/
def checkEndpoint (api : Endpoint) (env : CheckEnv) (store : List Metric) :
    Except String (List Metric) :=
  match env.outcome with
  | ProbeOutcome.ok status elapsedTry =>
      match env.appendOk with
      | none =>
          Except.ok (log_metric store env.tLogOk api.url (methodOf api)
            elapsedTry status true none)
      | some e =>
          match env.appendErr with
          | none =>
              Except.ok (log_metric store env.tLogErr api.url (methodOf api)
                env.elapsedCatch (-1) false (some e))
          | some e2 => Except.error e2
  | ProbeOutcome.exn msg =>
      match env.appendErr with
      | none =>
          Except.ok (log_metric store env.tLogErr api.url (methodOf api)
            env.elapsedCatch (-1) false (some msg))
      | some e2 => Except.error e2

/-- One full cycle of `monitor_api`: the `for` loop over the configured
endpoints, each paired with its environment.  An uncaught exception aborts
the whole loop (the monitor thread dies), so the remaining endpoints are
not probed. -/
def runCycle (apis : List (Endpoint × CheckEnv)) (store : List Metric) :
    Except String (List Metric) :=
  match apis with
  | [] => Except.ok store
  | (api, env) :: rest =>
      match checkEndpoint api env store with
      | Except.ok store' => runCycle rest store'
      | Except.error e => Except.error e

/-- The persistent database: whether the `metrics` table exists, and its
rows in insertion order. -/
structure DB where
  schemaExists : Bool
  rows : List Metric
deriving Repr, DecidableEq

/-- `init_db` (lines 39-55): `CREATE TABLE IF NOT EXISTS metrics (...)` —
ensures the schema exists and touches no rows. -/
def init_db (db : DB) : DB :=
  { schemaExists := true, rows := db.rows }

/-- The dashboard's recent-records query (line 89),
`SELECT * FROM metrics ORDER BY id DESC LIMIT limit`: ids are assigned in
insertion order, so this is the reversed row list truncated to `limit`. -/
def recentQuery (rows : List Metric) (limit : Nat) : List Metric :=
  rows.reverse.take limit

/-- The query the dashboard actually issues, with its hard-coded LIMIT 50. -/
def dashboardRecent (rows : List Metric) : List Metric :=
  recentQuery rows 50

/-- One output row of the dashboard's summary query (lines 90-98). -/
structure AggRow where
  endpoint : String
  total : Nat
  successes : Nat
  failures : Nat
  avg_time : ℚ
deriving Repr, DecidableEq

/-- The dashboard's summary query (lines 90-98): GROUP BY endpoint with
`COUNT(*)`, `SUM(CASE WHEN success=1 THEN 1 ELSE 0 END)`,
`SUM(CASE WHEN success=0 THEN 1 ELSE 0 END)` and `AVG(response_time)`.
Every group is nonempty, so `AVG` is sum over count. -/
def summaryQuery (rows : List Metric) : List AggRow :=
  ((rows.map Metric.endpoint).dedup).map (fun url =>
    let g := rows.filter (fun m => m.endpoint == url)
    { endpoint := url
      total := g.length
      successes := (g.map (fun m => if m.success then 1 else 0)).sum
      failures := (g.map (fun m => if m.success then 0 else 1)).sum
      avg_time := (g.map Metric.response_time).sum / (g.length : ℚ) })

/-- The elapsed reading that ends up in the row of one check, assuming its
row is written on the first attempt: line 76 on the success path, line 80
on the handler path. -/
def elapsedOf (env : CheckEnv) : ℚ :=
  match env.outcome with
  | ProbeOutcome.ok _ elapsedTry => elapsedTry
  | ProbeOutcome.exn _ => env.elapsedCatch

/-- The single row a check appends when its `log_metric` call succeeds on
the first attempt. -/
def metricOf (api : Endpoint) (env : CheckEnv) : Metric :=
  match env.outcome with
  | ProbeOutcome.ok status elapsedTry =>
      { timestamp := env.tLogOk, endpoint := api.url, method := methodOf api,
        response_time := elapsedTry, status_code := status, success := true,
        error_message := none }
  | ProbeOutcome.exn msg =>
      { timestamp := env.tLogErr, endpoint := api.url, method := methodOf api,
        response_time := env.elapsedCatch, status_code := -1, success := false,
        error_message := some msg }

/- Concrete endpoints and environments used in witnesses and
counterexamples. -/

def epA : Endpoint := { url := "https://a.example/posts", method := some "GET" }

def epB : Endpoint := { url := "https://b.example/users", method := some "GET" }

def epNoMethod : Endpoint := { url := "https://c.example/x", method := none }

/-- A transport failure whose failure row is written successfully. -/
def envExn : CheckEnv :=
  { t0 := 0, outcome := ProbeOutcome.exn "HTTPSConnectionPool: Read timed out",
    elapsedCatch := 5, tLogOk := 0, tLogErr := 5,
    appendOk := none, appendErr := none }

/-- A transport failure whose failure row INSERT itself raises. -/
def envExnBadWrite : CheckEnv :=
  { t0 := 0, outcome := ProbeOutcome.exn "ConnectionError: name resolution failed",
    elapsedCatch := 1, tLogOk := 0, tLogErr := 1,
    appendOk := none, appendErr := some "disk I/O error" }

/-- A fast 200 response whose row is written successfully. -/
def envOkFast : CheckEnv :=
  { t0 := 6, outcome := ProbeOutcome.ok 200 (1/100),
    elapsedCatch := 1/100, tLogOk := 6 + 1/100, tLogErr := 6 + 1/100,
    appendOk := none, appendErr := none }

/-- A 404 response whose row is written successfully. -/
def envOk404 : CheckEnv :=
  { t0 := 0, outcome := ProbeOutcome.ok 404 (3/100),
    elapsedCatch := 3/100, tLogOk := 3/100, tLogErr := 3/100,
    appendOk := none, appendErr := none }

/-- A 200 response whose success-row INSERT raises; the handler's
substitute failure-row INSERT succeeds. -/
def envOkBadWrite : CheckEnv :=
  { t0 := 0, outcome := ProbeOutcome.ok 200 (1/100),
    elapsedCatch := 2/100, tLogOk := 1/100, tLogErr := 2/100,
    appendOk := some "database is locked", appendErr := none }

/-- The row `checkEndpoint epA envOk404 []` appends. -/
def mOk404 : Metric := metricOf epA envOk404

/-- The row `checkEndpoint epNoMethod envOkFast []` appends. -/
def mNoMethod : Metric := metricOf epNoMethod envOkFast

/-- The summary-scenario store: one endpoint with three successes of times
1/10, 2/10, 3/10 and one failure of time 1. -/
def scenarioRows : List Metric :=
  [ { timestamp := 1, endpoint := "https://a.example/posts", method := "GET",
      response_time := 1/10, status_code := 200, success := true,
      error_message := none },
    { timestamp := 2, endpoint := "https://a.example/posts", method := "GET",
      response_time := 2/10, status_code := 200, success := true,
      error_message := none },
    { timestamp := 3, endpoint := "https://a.example/posts", method := "GET",
      response_time := 3/10, status_code := 200, success := true,
      error_message := none },
    { timestamp := 4, endpoint := "https://a.example/posts", method := "GET",
      response_time := 1, status_code := -1, success := false,
      error_message := some "Read timed out" } ]

/- Helper lemmas shared by several claim theorems. -/

/-- If one check returns normally, the store grew by exactly one row, that
row's `endpoint` and `method` come from the configured endpoint, and its
`timestamp` is one of the two `utcnow` readings taken inside `log_metric`. -/
theorem checkEndpoint_ok_shape (api : Endpoint) (env : CheckEnv)
    (store out : List Metric) (h : checkEndpoint api env store = Except.ok out) :
    ∃ m : Metric, out = store ++ [m] ∧ m.method = methodOf api ∧
      m.endpoint = api.url ∧
      (m.timestamp = env.tLogOk ∨ m.timestamp = env.tLogErr) := by
  cases env with
  | mk t0 outc elC tOk tErr aOk aErr =>
    cases outc with
    | ok status el =>
        cases aOk with
        | none =>
            exact ⟨_, (Except.ok.inj h).symm, rfl, rfl, Or.inl rfl⟩
        | some e =>
            cases aErr with
            | none => exact ⟨_, (Except.ok.inj h).symm, rfl, rfl, Or.inr rfl⟩
            | some e2 => exact Except.noConfusion h
    | exn msg =>
        cases aErr with
        | none => exact ⟨_, (Except.ok.inj h).symm, rfl, rfl, Or.inr rfl⟩
        | some e2 => exact Except.noConfusion h

/-- When both possible INSERTs of a check succeed, the check appends
exactly `metricOf api env`. -/
theorem checkEndpoint_appends_ok (api : Endpoint) (env : CheckEnv)
    (store : List Metric) (h1 : env.appendOk = none)
    (h2 : env.appendErr = none) :
    checkEndpoint api env store = Except.ok (store ++ [metricOf api env]) := by
  cases env with
  | mk t0 outc elC tOk tErr aOk aErr =>
    cases h1
    cases h2
    cases outc <;> rfl

/-- The row of a first-attempt write carries the elapsed reading of its
path. -/
theorem metricOf_response_time (api : Endpoint) (env : CheckEnv) :
    (metricOf api env).response_time = elapsedOf env := by
  cases env with
  | mk t0 outc elC tOk tErr aOk aErr => cases outc <;> rfl

/-- The two CASE sums of the summary query split the group's row count. -/
theorem sum_case_split (g : List Metric) :
    (g.map (fun m => if m.success then 1 else 0)).sum
      + (g.map (fun m => if m.success then 0 else 1)).sum = g.length := by
  induction g with
  | nil => rfl
  | cons m t ih =>
      cases hm : m.success <;> simp [hm] <;> omega

/-- The success CASE sum counts the group's successful rows. -/
theorem sum_case_success (g : List Metric) :
    (g.map (fun m => if m.success then 1 else 0)).sum
      = (g.filter (fun m => m.success)).length := by
  induction g with
  | nil => rfl
  | cons m t ih =>
      cases hm : m.success
      · simp [hm, ih]
      · simp [hm, ih]
        omega

/-- C1: a transport-level exception (timeout, connection failure, DNS
failure, ...) raised by the request is caught by the loop's handler and
never propagates; when the handler's INSERT succeeds, exactly one row is
recorded for that check, with `success = false`, `status_code = -1` and a
non-empty `error_message` holding the exception's text. -/
theorem C1_transport_failure_contained (api : Endpoint) (env : CheckEnv)
    (store : List Metric) (msg : String)
    (hout : env.outcome = ProbeOutcome.exn msg) (hmsg : msg ≠ "")
    (happ : env.appendErr = none) :
    ∃ m : Metric,
      checkEndpoint api env store = Except.ok (store ++ [m]) ∧
      m.success = false ∧ m.status_code = -1 ∧
      m.error_message = some msg ∧ msg ≠ "" := by
  cases env with
  | mk t0 outc elC tOk tErr aOk aErr =>
    cases hout
    cases happ
    exact ⟨_, rfl, rfl, rfl, rfl, hmsg⟩

/-- C1 witness: a concrete timed-out probe whose failure row is written. -/
theorem C1_transport_failure_contained_witness :
    ∃ m : Metric,
      checkEndpoint epA envExn [] = Except.ok ([] ++ [m]) ∧
      m.success = false ∧ m.status_code = -1 ∧
      m.error_message = some "HTTPSConnectionPool: Read timed out" ∧
      "HTTPSConnectionPool: Read timed out" ≠ "" :=
  C1_transport_failure_contained epA envExn [] _ rfl (by decide) rfl

/-- C2 counterexample: endpoint A's probe fails at transport level and the
handler's own INSERT of the failure row raises; that storage exception is
uncaught, so the cycle aborts with it and endpoint B, later in the same
cycle, is skipped — contradicting "a single failed write never aborts the
loop and never causes any subsequent endpoint to be skipped". -/
theorem C2_counterexample :
    runCycle [(epA, envExnBadWrite), (epB, envOkFast)] [] =
      Except.error "disk I/O error" := rfl

/-- C2 (amended): an append failure raised while recording a SUCCESSFUL
probe is caught by the loop's blanket handler, a substitute failure row
(status -1, the storage error text) is appended, and the cycle continues
with the remaining endpoints; an append failure raised while recording a
failed probe — or a failure of that substitute write — is uncaught and
aborts the loop (see the counterexample). -/
theorem C2_success_path_write_failure_contained (api : Endpoint)
    (env : CheckEnv) (rest : List (Endpoint × CheckEnv)) (store : List Metric)
    (status : Int) (el : ℚ) (e : String)
    (h1 : env.outcome = ProbeOutcome.ok status el)
    (h2 : env.appendOk = some e) (h3 : env.appendErr = none) :
    runCycle ((api, env) :: rest) store =
      runCycle rest (store ++
        [{ timestamp := env.tLogErr, endpoint := api.url,
           method := methodOf api, response_time := env.elapsedCatch,
           status_code := -1, success := false,
           error_message := some e }]) := by
  cases env with
  | mk t0 outc elC tOk tErr aOk aErr =>
    cases h1
    cases h2
    cases h3
    rfl

/-- C2 amended witness: a locked-database failure on the success-path
INSERT leaves the cycle running on the remaining endpoint. -/
theorem C2_success_path_write_failure_contained_witness :
    runCycle [(epA, envOkBadWrite), (epB, envOkFast)] [] =
      runCycle [(epB, envOkFast)] ([] ++
        [{ timestamp := envOkBadWrite.tLogErr, endpoint := epA.url,
           method := methodOf epA, response_time := envOkBadWrite.elapsedCatch,
           status_code := -1, success := false,
           error_message := some "database is locked" }]) :=
  C2_success_path_write_failure_contained epA envOkBadWrite [(epB, envOkFast)]
    [] 200 (1/100) "database is locked" rfl rfl rfl

/-- C3: for every endpoint URL with at least one row, the summary query
yields a row whose `total` counts all rows of that URL, whose `successes`
counts its successful rows, with `successes + failures = total`, and whose
`avg_time` is the mean of `response_time` over ALL of its rows (failures
included); on the three-successes (1/10, 2/10, 3/10) plus one-failure (1)
scenario it yields total 4, successes 3, failures 1 and average 2/5. -/
theorem C3_summary_aggregates :
    (∀ (rows : List Metric) (url : String), url ∈ rows.map Metric.endpoint →
      ∃ r, r ∈ summaryQuery rows ∧ r.endpoint = url ∧
        r.total = (rows.filter (fun m => m.endpoint == url)).length ∧
        r.successes =
          ((rows.filter (fun m => m.endpoint == url)).filter
            (fun m => m.success)).length ∧
        r.successes + r.failures = r.total ∧
        r.avg_time =
          ((rows.filter (fun m => m.endpoint == url)).map
            Metric.response_time).sum
            / ((rows.filter (fun m => m.endpoint == url)).length : ℚ)) ∧
    summaryQuery scenarioRows =
      [{ endpoint := "https://a.example/posts", total := 4, successes := 3,
         failures := 1, avg_time := 2/5 }] := by
  constructor
  · intro rows url hmem
    refine ⟨_, List.mem_map.mpr ⟨url, List.mem_dedup.mpr hmem, rfl⟩, rfl, rfl,
      sum_case_success _, sum_case_split _, rfl⟩
  · norm_num [summaryQuery, scenarioRows]

/-- C3 witness at the scenario store. -/
theorem C3_summary_aggregates_witness :
    ∃ r, r ∈ summaryQuery scenarioRows ∧
      r.endpoint = "https://a.example/posts" ∧
      r.total = (scenarioRows.filter
        (fun m => m.endpoint == "https://a.example/posts")).length ∧
      r.successes = ((scenarioRows.filter
        (fun m => m.endpoint == "https://a.example/posts")).filter
          (fun m => m.success)).length ∧
      r.successes + r.failures = r.total ∧
      r.avg_time = ((scenarioRows.filter
        (fun m => m.endpoint == "https://a.example/posts")).map
          Metric.response_time).sum
        / ((scenarioRows.filter
            (fun m => m.endpoint == "https://a.example/posts")).length : ℚ) :=
  C3_summary_aggregates.1 scenarioRows "https://a.example/posts" (by decide)

/-- C4: the recent-records query returns at most `limit` rows, newest
insertion first (`ORDER BY id DESC`), and on a store that held nothing
before `k ≤ limit` appends it returns exactly those `k` rows in reverse
insertion order; the dashboard issues it with LIMIT 50. -/
theorem C4_recent_query_order_and_limit :
    (∀ (rows : List Metric) (n : Nat), (recentQuery rows n).length ≤ n) ∧
    (∀ (ms : List Metric) (n : Nat), ms.length ≤ n →
      recentQuery ms n = ms.reverse) ∧
    (∀ rows : List Metric, dashboardRecent rows = recentQuery rows 50) := by
  refine ⟨fun rows n => ?_, fun ms n h => ?_, fun rows => rfl⟩
  · simp [recentQuery]
  · unfold recentQuery
    exact List.take_of_length_le (by simpa using h)

/-- C4 witness: the four scenario appends, read back newest first. -/
theorem C4_recent_query_order_and_limit_witness :
    recentQuery scenarioRows 50 = scenarioRows.reverse :=
  C4_recent_query_order_and_limit.2.1 scenarioRows 50 (by decide)

/-- C5: a response received within the timeout — with ANY status code,
4xx/5xx included — yields one row with `success = true`, `status_code`
equal to the received HTTP status, no `error_message`, and the elapsed
reading as `response_time`. -/
theorem C5_response_recorded_as_success (api : Endpoint) (env : CheckEnv)
    (store : List Metric) (status : Int) (el : ℚ)
    (hout : env.outcome = ProbeOutcome.ok status el)
    (happ : env.appendOk = none) :
    ∃ m : Metric,
      checkEndpoint api env store = Except.ok (store ++ [m]) ∧
      m.success = true ∧ m.status_code = status ∧ m.error_message = none ∧
      m.response_time = el := by
  cases env with
  | mk t0 outc elC tOk tErr aOk aErr =>
    cases hout
    cases happ
    exact ⟨_, rfl, rfl, rfl, rfl, rfl⟩

/-- C5 witness: a 404 response is still recorded as a transport success. -/
theorem C5_response_recorded_as_success_witness :
    ∃ m : Metric,
      checkEndpoint epA envOk404 [] = Except.ok ([] ++ [m]) ∧
      m.success = true ∧ m.status_code = 404 ∧ m.error_message = none ∧
      m.response_time = 3/100 :=
  C5_response_recorded_as_success epA envOk404 [] 404 (3/100) rfl rfl

/-- The row of a first-attempt write carries the configured endpoint URL. -/
theorem metricOf_endpoint (api : Endpoint) (env : CheckEnv) :
    (metricOf api env).endpoint = api.url := by
  cases env with
  | mk t0 outc elC tOk tErr aOk aErr => cases outc <;> rfl

/-- A cycle in which every INSERT succeeds appends exactly one row per
endpoint, in configuration order. -/
theorem runCycle_all_ok (apis : List (Endpoint × CheckEnv)) :
    ∀ store : List Metric,
      (∀ p ∈ apis, p.2.appendOk = none ∧ p.2.appendErr = none) →
      runCycle apis store =
        Except.ok (store ++ apis.map (fun p => metricOf p.1 p.2)) := by
  induction apis with
  | nil =>
      intro store _
      simp [runCycle]
  | cons p rest ih =>
      intro store hok
      obtain ⟨api, env⟩ := p
      obtain ⟨h1, h2⟩ := hok (api, env) (List.mem_cons_self _ _)
      have hrest : ∀ q ∈ rest, q.2.appendOk = none ∧ q.2.appendErr = none :=
        fun q hq => hok q (List.mem_cons_of_mem _ hq)
      simp only [runCycle, checkEndpoint_appends_ok api env store h1 h2]
      rw [ih (store ++ [metricOf api env]) hrest]
      simp

/-- C6: on crash-free paths (every INSERT succeeds), a full cycle appends
exactly one row per configured endpoint, in order, whatever each probe's
outcome — in particular endpoint B still gets its single row when endpoint
A timed out earlier in the same cycle — and each row carries its check's
elapsed reading (nonnegative whenever the clock reading is) and its
endpoint's URL. -/
theorem C6_exactly_one_metric_per_check (apis : List (Endpoint × CheckEnv))
    (store : List Metric)
    (hok : ∀ p ∈ apis, p.2.appendOk = none ∧ p.2.appendErr = none) :
    runCycle apis store =
      Except.ok (store ++ apis.map (fun p => metricOf p.1 p.2)) ∧
    (∀ p ∈ apis, 0 ≤ elapsedOf p.2 → 0 ≤ (metricOf p.1 p.2).response_time) ∧
    (∀ p ∈ apis, (metricOf p.1 p.2).endpoint = p.1.url) := by
  refine ⟨runCycle_all_ok apis store hok, fun p _ hel => ?_, fun p _ => ?_⟩
  · rw [metricOf_response_time]
    exact hel
  · exact metricOf_endpoint p.1 p.2

/-- C6 witness: endpoint A times out, endpoint B answers 200; the cycle
records exactly one row for each. -/
theorem C6_exactly_one_metric_per_check_witness :
    runCycle [(epA, envExn), (epB, envOkFast)] [] =
      Except.ok ([] ++ [(epA, envExn), (epB, envOkFast)].map
        (fun p => metricOf p.1 p.2)) ∧
    (∀ p ∈ [(epA, envExn), (epB, envOkFast)], 0 ≤ elapsedOf p.2 →
      0 ≤ (metricOf p.1 p.2).response_time) ∧
    (∀ p ∈ [(epA, envExn), (epB, envOkFast)],
      (metricOf p.1 p.2).endpoint = p.1.url) :=
  C6_exactly_one_metric_per_check [(epA, envExn), (epB, envOkFast)] []
    (by decide)

/-- C7 counterexample: at a concrete, physically realistic check (start
instant 0, request elapsed 3/100, `utcnow` read 3/100 inside `log_metric`)
the stored `timestamp` is the insertion instant 3/100, not the check-start
instant `t0 = 0`: `log_metric` calls `datetime.utcnow()` at INSERT time
and the loop never passes the start reading to it. -/
theorem C7_counterexample :
    checkEndpoint epA envOk404 [] = Except.ok [mOk404] ∧
    mOk404.timestamp ≠ envOk404.t0 := by
  refine ⟨rfl, ?_⟩
  norm_num [mOk404, metricOf, envOk404]

/-- C7 (amended): the stored `timestamp` is the UTC instant read inside
`log_metric` at insertion time — after the request completed or failed —
not the check's start instant. -/
theorem C7_timestamp_is_insertion_instant (api : Endpoint) (env : CheckEnv)
    (store : List Metric) (m : Metric)
    (h : checkEndpoint api env store = Except.ok (store ++ [m])) :
    m.timestamp = env.tLogOk ∨ m.timestamp = env.tLogErr := by
  obtain ⟨m2, hout, -, -, hts⟩ := checkEndpoint_ok_shape api env store _ h
  have h2 := List.append_cancel_left hout
  injection h2 with h3 _
  subst h3
  exact hts

/-- C7 amended witness at the concrete 404 check. -/
theorem C7_timestamp_is_insertion_instant_witness :
    mOk404.timestamp = envOk404.tLogOk ∨ mOk404.timestamp = envOk404.tLogErr :=
  C7_timestamp_is_insertion_instant epA envOk404 [] mOk404 rfl

/-- C8: `init_db` only issues `CREATE TABLE IF NOT EXISTS`: it ensures
the schema exists, leaves every stored row unchanged, and a second run
changes nothing further. -/
theorem C8_init_db_idempotent (db : DB) :
    init_db (init_db db) = init_db db ∧ (init_db db).rows = db.rows ∧
    (init_db db).schemaExists = true :=
  ⟨rfl, rfl, rfl⟩

/-- C9: when the request yields a response but the INSERT of the success
row raises, the blanket handler treats the storage exception like a probe
failure: the row then written (when the second INSERT succeeds) has
`success = false`, `status_code = -1`, `error_message` equal to the
storage exception's text, and the handler's re-read elapsed value — the
received HTTP status appears in no stored row of the check. -/
theorem C9_storage_failure_recorded_as_probe_failure (api : Endpoint)
    (env : CheckEnv) (store : List Metric) (status : Int) (el : ℚ)
    (e : String) (hout : env.outcome = ProbeOutcome.ok status el)
    (h1 : env.appendOk = some e) (h2 : env.appendErr = none) :
    ∃ m : Metric,
      checkEndpoint api env store = Except.ok (store ++ [m]) ∧
      m.success = false ∧ m.status_code = -1 ∧ m.error_message = some e ∧
      m.response_time = env.elapsedCatch := by
  cases env with
  | mk t0 outc elC tOk tErr aOk aErr =>
    cases hout
    cases h1
    cases h2
    exact ⟨_, rfl, rfl, rfl, rfl, rfl⟩

/-- C9 witness: a 200 response whose success-row INSERT hits a locked
database; the check's one stored row is a -1 failure row carrying the
storage error text. -/
theorem C9_storage_failure_recorded_as_probe_failure_witness :
    ∃ m : Metric,
      checkEndpoint epA envOkBadWrite [] = Except.ok ([] ++ [m]) ∧
      m.success = false ∧ m.status_code = -1 ∧
      m.error_message = some "database is locked" ∧
      m.response_time = envOkBadWrite.elapsedCatch :=
  C9_storage_failure_recorded_as_probe_failure epA envOkBadWrite [] 200
    (1/100) "database is locked" rfl rfl rfl

/-- C10: the method string used for the request and stored in the row is
the configured method string uppercased, and it defaults to "GET" when
the endpoint configuration has no "method" key. -/
theorem C10_method_uppercased_defaults_get (api : Endpoint) (env : CheckEnv)
    (store : List Metric) (m : Metric)
    (h : checkEndpoint api env store = Except.ok (store ++ [m])) :
    m.method = pyUpper (api.method.getD "GET") ∧
    (api.method = none → m.method = "GET") := by
  obtain ⟨m2, hout, hmeth, -, -⟩ := checkEndpoint_ok_shape api env store _ h
  have h2 := List.append_cancel_left hout
  injection h2 with h3 _
  subst h3
  refine ⟨hmeth, fun hnone => ?_⟩
  rw [hmeth]
  unfold methodOf
  rw [hnone]
  decide

/-- C10 witness: an endpoint configured without a "method" key is probed
and recorded with method "GET". -/
theorem C10_method_uppercased_defaults_get_witness :
    mNoMethod.method = pyUpper (epNoMethod.method.getD "GET") ∧
    (epNoMethod.method = none → mNoMethod.method = "GET") :=
  C10_method_uppercased_defaults_get epNoMethod envOkFast [] mNoMethod rfl
